import Mathlib

/-!
Verification development for the `WalletConnectWallet` adapter
(`src/adapter.ts` of `@tronweb3/walletconnect-tron`).

The adapter is embedded shallowly: the class's mutable fields become a
`WalletState` record, each method becomes a pure function from the state
(plus the inputs the environment supplies: the transport's `find` result,
the outcome of the modal/approval race, the remote response) to a result
record carrying the new state, the list of events emitted through the
in-process event bus, and the error thrown, if any.  JavaScript-specific
behaviour (falsiness of `""`, `String.prototype.split`, `||`, optional
chaining) is modelled explicitly.
-/

namespace WalletConnectTron

/-! ## JavaScript string primitives -/

/-- JavaScript `String.prototype.split(':')` for a single-character separator:
splits into colon-delimited segments, keeping empty segments
(`"a:b:".split(':') = ["a","b",""]`, `"".split(':') = [""]`). -/
def splitCharsOnColon : List Char → List (List Char)
  | [] => [[]]
  | c :: cs =>
    let rest := splitCharsOnColon cs
    if c = ':' then [] :: rest
    else
      match rest with
      | s :: ss => (c :: s) :: ss
      | [] => [[c]]

/-- The split `account.split(':')` as used in `adapter.ts`. -/
def jsSplitColon (s : String) : List String :=
  (splitCharsOnColon s.data).map List.asString

/-- JavaScript truthiness of an optional string: `undefined` and `""` are
falsy, every other string is truthy. -/
def strTruthy : Option String → Bool
  | none => false
  | some s => s ≠ ""

/-- JavaScript `a || b` over optional strings (`this._session?.topic ||
this.provider?.session?.topic`): keeps `a` when it is truthy. -/
def jsOrStr (a b : Option String) : Option String :=
  if strTruthy a then a else b

/-! ## Data model: sessions -/

/-- One value of the `namespaces` record of a `SessionTypes.Struct`; the
embedded code reads only its `accounts` list. -/
structure NamespaceEntry where
  accounts : List String
deriving DecidableEq, Repr

/-- A `SessionTypes.Struct`, restricted to the fields `adapter.ts` reads.
`namespaces` is the key-ordered entry list of the JS object
(`Object.values` iterates in insertion order). -/
structure Session where
  topic : String
  namespaces : List (String × NamespaceEntry)
  sessionProperties : Option (List (String × String)) := none
  acknowledged : Bool := true
deriving DecidableEq, Repr

/-- The accounts list `Object.values(session.namespaces).flatMap(ns => ns.accounts)`. -/
def accountsOf (s : Session) : List String :=
  (s.namespaces.map Prod.snd).flatMap NamespaceEntry.accounts

/-- The errors the adapter throws, one constructor per throw site. -/
inductive AdapterError where
  /-- Thrown as `'[WalletConnectWallet] No accounts found in session'`. -/
  | noAccountsFound
  /-- Thrown as `'[WalletConnectWallet] Invalid account format: ...'`. -/
  | invalidAccountFormat (account : String)
  /-- Thrown as `ClientNotInitializedError`. -/
  | clientNotInitialized
  /-- Thrown as `'User closed the connection modal'` (rejection of the modal-close race). -/
  | userClosedModal
  /-- Thrown as `'projectId is required to initialize UniversalProvider'`. -/
  | missingProjectId
  /-- opaque failure propagated from the transport -/
  | transportFailure
deriving DecidableEq, Repr

/-- Embeds `extractAddressFromSession` (adapter.ts:150-165).  `!account` is true
when `accounts[0]` is `undefined` or the empty string; `!address` is true
when `account.split(':')[2]` is `undefined` or empty. -/
def extractAddressFromSession (s : Session) : Except AdapterError String :=
  let accounts := accountsOf s
  match accounts.head? with
  | none => .error .noAccountsFound
  | some account =>
    if account = "" then .error .noAccountsFound
    else
      match (jsSplitColon account)[2]? with
      | none => .error (.invalidAccountFormat account)
      | some address =>
        if address = "" then .error (.invalidAccountFormat account)
        else .ok address

/-- Embeds `extractAllAddressesFromSession` (adapter.ts:167-176): maps each
account to `split(':')[2]` and keeps the truthy results. -/
def extractAllAddressesFromSession (s : Session) : List String :=
  let accounts := accountsOf s
  if accounts.isEmpty then []
  else
    accounts.filterMap fun account =>
      match (jsSplitColon account)[2]? with
      | none => none
      | some address => if address = "" then none else some address

instance {ε α : Type} [DecidableEq ε] [DecidableEq α] : DecidableEq (Except ε α) := fun x y =>
  match x, y with
  | .error e, .error e' => decidable_of_iff (e = e') (by simp)
  | .error _, .ok _ => isFalse fun h => Except.noConfusion h
  | .ok _, .error _ => isFalse fun h => Except.noConfusion h
  | .ok a, .ok a' => decidable_of_iff (a = a') (by simp)

/-- Returns `true` when `extractAddressFromSession` throws. -/
def extractAddressThrows (s : Session) : Bool :=
  match extractAddressFromSession s with
  | .error _ => true
  | .ok _ => false

/-- Restatement of the amended failure condition in the spec's vocabulary:
the primary-address extraction fails exactly when there is no first
account string, or the first account string is empty, or its colon-split
has no third segment or an empty third segment. -/
def primaryExtractionFailsSpec (s : Session) : Bool :=
  match (accountsOf s).head? with
  | none => true
  | some account => account = "" || ((jsSplitColon account)[2]?.getD "" = "")

/-- A session whose first account has exactly three colon-delimited
segments but an empty third one, followed by a well-formed account. -/
def emptyThirdSegSession : Session :=
  { topic := "topic1"
    namespaces := [("tron", ⟨["a:b:", "x:y:z"]⟩)] }

/-- A well-formed single-account session. -/
def wfSession : Session :=
  { topic := "topic1"
    namespaces := [("tron", ⟨["tron:0x2b6653dc:TXYZ"]⟩)] }

/-! ## Adapter state -/

/-- Events emitted through the in-process event bus (`this.emit`). -/
inductive Event where
  | accountsChanged (accounts : List String)
  | disconnected
deriving DecidableEq, Repr

/-- A subscription request cached before the AppKit UI controller exists
(`pendingModalCallbacks` entries).  `slotId` identifies the mutable
`unsubscribeRef` cell captured by the returned closure; `callback`
identifies the caller's callback function object. -/
structure PendingRec where
  slotId : Nat
  callback : Nat
deriving DecidableEq, Repr

/-- The mutable fields of the `WalletConnectWallet` class that the
embedded methods read or write.  Function objects (listeners, callbacks,
unsubscribe handles) are identified by `Nat` ids. -/
structure WalletState where
  /-- the configured chain id (`this._network`) -/
  network : String := "tron:0x2b6653dc"
  /-- whether `this._client` is set (`undefined` otherwise) -/
  clientPresent : Bool := false
  /-- whether `this.provider` is set; its `.client` is available through it -/
  providerPresent : Bool := false
  /-- the field `this._session` -/
  session : Option Session := none
  /-- the field `this.address` -/
  address : Option String := none
  /-- whether the `this.sessionHandlers` update/delete handlers are installed -/
  handlersInstalled : Bool := false
  /-- the registry `this.eventListeners`: event name to listener ids, in registration order -/
  eventListeners : List (String × List Nat) := []
  /-- whether `this.appKit` has been created -/
  appKitPresent : Bool := false
  /-- the queue `this.pendingModalCallbacks` -/
  pendingModal : List PendingRec := []
  /-- the list `this.modalStateUnsubscribers`: ids of the callbacks whose live AppKit
  subscription each stored unsubscribe handle tears down when invoked -/
  modalStateUnsubscribers : List Nat := []
  /-- which `unsubscribeRef.fn` slots have been written, and with which
  real unsubscribe handle (identified by the subscribed callback id) -/
  slotAssignments : List (Nat × Nat) := []
  /-- callbacks currently subscribed on the AppKit controller -/
  appKitModalSubscribed : List Nat := []
  /-- fresh-id supply for slots -/
  nextSlotId : Nat := 0
deriving DecidableEq, Repr

/-- Result of running one adapter method: the state after it settles, the
events it emitted on the event bus (in order), and the error it threw, if
any. -/
structure MethodResult where
  state : WalletState
  events : List Event := []
  threw : Option AdapterError := none
deriving DecidableEq, Repr

/-! ## Remote mutation listeners (`setupSessionListeners`) -/

/-- The `session_update` payload: a topic and the optional
`params.namespaces` override. -/
structure UpdateNotif where
  topic : String
  paramsNamespaces : Option (List (String × NamespaceEntry))
deriving DecidableEq, Repr

/-- Embeds `this._client.session.get(topic)`: the transport's session store,
modelled as the list of its records; `get` throws when absent (the
handler catches that and returns). -/
def sessionGet (store : List Session) (topic : String) : Option Session :=
  store.find? fun s => s.topic = topic

/-- The merge at adapter.ts:235:
`{ ...updated, namespaces: params?.namespaces || updated.namespaces }`
(a present `namespaces` object is always truthy). -/
def mergeSession (updated : Session) (n : UpdateNotif) : Session :=
  { updated with namespaces := n.paramsNamespaces.getD updated.namespaces }

/-- The `session_update` handler (adapter.ts:223-243).  `JSON.stringify`
comparison of two string arrays is modelled as list equality (stringify
is injective on arrays of strings).  Note the handler assigns the merged
session *before* extracting the primary address, and the extraction can
throw out of the handler before the changed-comparison and the emit. -/
def sessionUpdateHandler (st : WalletState) (store : List Session)
    (n : UpdateNotif) : MethodResult :=
  match st.session with
  | none => { state := st }
  | some sess =>
    if sess.topic ≠ n.topic then { state := st }
    else
      match sessionGet store n.topic with
      | none => { state := st }
      | some updated =>
        let oldAddresses := extractAllAddressesFromSession sess
        let merged := mergeSession updated n
        let st1 := { st with session := some merged }
        match extractAddressFromSession merged with
        | .error e => { state := st1, threw := some e }
        | .ok addr =>
          let st2 := { st1 with address := some addr }
          let newAddresses := extractAllAddressesFromSession merged
          if oldAddresses ≠ newAddresses then
            { state := st2, events := [.accountsChanged newAddresses] }
          else
            { state := st2 }

/-- The `session_delete` handler (adapter.ts:245-252): on a matching
topic, clear the session and address, emit `disconnect`, and tear the
handlers down; otherwise do nothing. -/
def sessionDeleteHandler (st : WalletState) (topic : String) : MethodResult :=
  match st.session with
  | some sess =>
    if sess.topic = topic then
      { state := { st with session := none, address := none, handlersInstalled := false }
        events := [.disconnected] }
    else { state := st }
  | none => { state := st }

/-- Embeds `setupSessionListeners` (adapter.ts:210-256): early-return unless both
client and session exist; otherwise replace any prior handlers. -/
def setupSessionListeners (st : WalletState) : WalletState :=
  if st.clientPresent && st.session.isSome then
    { st with handlersInstalled := true }
  else st

/-! ## `disconnect` -/

/-- Embeds `disconnect()` (adapter.ts:402-436).  `providerSessionTopic` is the
transport's own `provider.session?.topic`; `remoteDisconnectFails` says
whether the remote `client.disconnect` call rejects.  The `finally` block
clears `_session` and `address` on every path. -/
def disconnect (st : WalletState) (providerSessionTopic : Option String)
    (remoteDisconnectFails : Bool) : MethodResult :=
  -- try block, up to its first throw
  let st1 :=
    { st with
      handlersInstalled := if st.clientPresent then false else st.handlersInstalled
      appKitModalSubscribed :=
        (st.appKitModalSubscribed.removeAll st.modalStateUnsubscribers)
      modalStateUnsubscribers := [] }
  let topic := jsOrStr (st.session.map Session.topic) providerSessionTopic
  let finallyClear := fun (s : WalletState) =>
    { s with session := none, address := none }
  if !strTruthy topic then
    { state := finallyClear st1, threw := some .clientNotInitialized }
  else if !(st.providerPresent || st.clientPresent) then
    { state := finallyClear st1, threw := some .clientNotInitialized }
  else if remoteDisconnectFails then
    { state := finallyClear st1, threw := some .transportFailure }
  else
    { state := finallyClear st1 }

/-! ## Subscription cache (`subscribeModalState` / `setupModalListeners`) -/

/-- Embeds `setupModalListeners` (adapter.ts:258-290), modal-state side: early
return if no AppKit; otherwise invoke and drop every stored unsubscribe
handle (removing the corresponding live subscriptions), then drain the
pending queue in FIFO order, subscribing each cached callback and writing
the real unsubscribe handle into its `unsubscribeRef` slot. -/
def setupModalListeners (st : WalletState) : WalletState :=
  if !st.appKitPresent then st
  else
    { st with
      appKitModalSubscribed :=
        (st.appKitModalSubscribed.removeAll st.modalStateUnsubscribers)
          ++ st.pendingModal.map PendingRec.callback
      modalStateUnsubscribers := st.pendingModal.map PendingRec.callback
      slotAssignments :=
        st.slotAssignments ++ st.pendingModal.map fun r => (r.slotId, r.callback)
      pendingModal := [] }

/-- The `!this.appKit` branch of `subscribeModalState` (adapter.ts:549-573):
cache `{callback, unsubscribeRef}` and hand back the identity of the new
record's slot, which the returned closure captures. -/
def subscribeModalStateBeforeAppKit (st : WalletState) (cb : Nat) :
    WalletState × Nat :=
  let slotId := st.nextSlotId
  ({ st with
      pendingModal := st.pendingModal ++ [⟨slotId, cb⟩]
      nextSlotId := slotId + 1 },
    slotId)

/-- The closure returned by the `!this.appKit` branch of
`subscribeModalState` (adapter.ts:556-572): if the slot's real
unsubscribe function has been written, invoke it and drop it from
`modalStateUnsubscribers`; otherwise remove the pending record from the
queue. -/
def pendingUnsubscribe (st : WalletState) (slotId : Nat) : WalletState :=
  match st.slotAssignments.lookup slotId with
  | some handle =>
    { st with
      appKitModalSubscribed := st.appKitModalSubscribed.erase handle
      modalStateUnsubscribers := st.modalStateUnsubscribers.erase handle }
  | none =>
    { st with pendingModal := st.pendingModal.eraseP fun r => r.slotId == slotId }

/-! ## `connect` -/

/-- Which of the two raced promises settles first (adapter.ts:376-385),
or whether the approval promise rejects first. -/
inductive RaceResult where
  | sessionApproved (s : Session)
  | modalClosedFirst
  | approvalFailed
deriving DecidableEq, Repr

/-- Environment inputs consumed by one `connect()` call: the transport's
`client.find(getConnectParams(network))` answer and the race outcome
(used only on the first-time path). -/
structure ConnectEnv where
  findResult : List Session
  race : RaceResult := .approvalFailed
deriving DecidableEq, Repr

/-- Result of a `connect()` call: final state, emitted events, whether
the approval UI was opened (`appKit.open()`), and the returned address or
the thrown error. -/
structure ConnectResult where
  state : WalletState
  events : List Event := []
  uiOpened : Bool := false
  outcome : Except AdapterError String
deriving DecidableEq, Repr

/-- The session-adoption block shared by the resume path
(adapter.ts:299-309) and the approval path (adapter.ts:387-393):
`_session` and `_client` are assigned, then the primary address is
extracted (which can throw, leaving the session assigned but the address
and listeners untouched), then listeners are armed and `accountsChanged`
is emitted. -/
def adoptSession (st : WalletState) (s : Session) (ui : Bool) : ConnectResult :=
  let st1 := { st with session := some s, clientPresent := true }
  match extractAddressFromSession s with
  | .error e => { state := st1, uiOpened := ui, outcome := .error e }
  | .ok addr =>
    let st2 := setupSessionListeners { st1 with address := some addr }
    { state := st2
      events := [.accountsChanged (extractAllAddressesFromSession s)]
      uiOpened := ui
      outcome := .ok addr }

/-- Embeds `connect()` (adapter.ts:292-400), assuming the provider was obtained.
The resume path filters the `find` result down to acknowledged sessions
and, when any remain, adopts the last one without opening any UI.  The
first-time path creates the AppKit controller once (draining the
subscription cache), opens the UI and races approval against UI close. -/
def connect (st : WalletState) (env : ConnectEnv) : ConnectResult :=
  let sessions := env.findResult.filter Session.acknowledged
  match sessions.getLast? with
  | some s => adoptSession st s false
  | none =>
    let st1 :=
      if st.appKitPresent then st
      else setupModalListeners { st with appKitPresent := true }
    match env.race with
    | .modalClosedFirst =>
      { state := st1, uiOpened := true, outcome := .error .userClosedModal }
    | .approvalFailed =>
      { state := st1, uiOpened := true, outcome := .error .transportFailure }
    | .sessionApproved s => adoptSession st1 s true

/-! ## `signTransaction` -/

/-- JSON-ish values, for request parameters and transport responses. -/
inductive JValue where
  | null
  | bool (b : Bool)
  | num (n : Int)
  | str (s : String)
  | obj (fields : List (String × JValue))

/-- JavaScript truthiness of a value. -/
def JValue.truthy : JValue → Bool
  | .null => false
  | .bool b => b
  | .num n => n != 0
  | .str s => s != ""
  | .obj _ => true

/-- Property access `v?.k`: `undefined` unless `v` is an object carrying
the key. -/
def JValue.getField : JValue → String → Option JValue
  | .obj fields, k => fields.lookup k
  | _, _ => none

/-- An optional string as a JS value. -/
def optStrJ : Option String → JValue
  | some s => .str s
  | none => .null

/-- The request record handed to `this._client.request` (adapter.ts:473-488). -/
structure TronRequest where
  chainId : String
  topic : String
  method : String
  params : JValue

/-- Embeds the flag `sessionProperties?.tron_method_version === 'v1'` (adapter.ts:470-471). -/
def isV1Method (sess : Session) : Bool :=
  (sess.sessionProperties.bind fun props => props.lookup "tron_method_version")
    = some "v1"

/-- Embeds `signTransaction` (adapter.ts:468-493), with the transport's response
supplied by the environment.  Returns the dispatched request together
with the value returned to the caller:
`result?.result ? result.result : result`. -/
def signTransaction (st : WalletState) (tx : JValue) (response : JValue) :
    Except AdapterError (TronRequest × JValue) :=
  if st.clientPresent && st.session.isSome then
    match st.session with
    | none => .error .clientNotInitialized
    | some sess =>
      let request : TronRequest :=
        { chainId := st.network
          topic := sess.topic
          method := "tron_signTransaction"
          params :=
            if isV1Method sess then
              .obj [("address", optStrJ st.address), ("transaction", tx)]
            else
              .obj [("address", optStrJ st.address),
                    ("transaction", .obj [("transaction", tx)])] }
      let returned :=
        match response.getField "result" with
        | some v => if v.truthy then v else response
        | none => response
      .ok (request, returned)
  else .error .clientNotInitialized

/-! ## Provider initializer (`getProvider`) -/

/-- The memoization state of `getProvider`: the resolved provider, the
in-flight initialization attempt (`providerPromise`), and a fresh-id
supply for attempts. -/
structure ProviderInitState where
  provider : Option Nat := none
  providerPromise : Option Nat := none
  nextAttempt : Nat := 0
deriving DecidableEq, Repr

/-- What the synchronous prefix of `getProvider()` (adapter.ts:126-144,
up to the `await`) does: return the resolved provider, join an attempt
(the in-flight one, or a freshly started one), or throw for a missing
`projectId` before anything is memoized. -/
inductive GetProviderBegin where
  | alreadyResolved (p : Nat)
  | awaitAttempt (attempt : Nat) (st : ProviderInitState)
  | configError (st : ProviderInitState)
deriving DecidableEq, Repr

/-- The synchronous prefix of `getProvider()`. -/
def getProviderBegin (st : ProviderInitState) (projectIdPresent : Bool) :
    GetProviderBegin :=
  match st.provider with
  | some p => .alreadyResolved p
  | none =>
    match st.providerPromise with
    | some a => .awaitAttempt a st
    | none =>
      if projectIdPresent then
        .awaitAttempt st.nextAttempt
          { st with
            providerPromise := some st.nextAttempt
            nextAttempt := st.nextAttempt + 1 }
      else .configError st

/-- The `.catch` continuation installed on the initialization promise
(adapter.ts:138-142): reset `providerPromise` so the next call retries. -/
def attemptFailed (st : ProviderInitState) : ProviderInitState :=
  { st with providerPromise := none }

/-- The continuation after a successful `await` (adapter.ts:144-147). -/
def attemptSucceeded (st : ProviderInitState) (p : Nat) : ProviderInitState :=
  { st with provider := some p }

end WalletConnectTron

namespace WalletConnectTron

/-! ## Claims C5 and C9: address extraction -/

/-- Claim C5, counterexample.  On a session whose first raw account string
is `"a:b:"` (exactly 3 colon-delimited segments) followed by `"x:y:z"`,
the bulk extraction is non-empty (`["z"]`) and the first account has 3
segments, yet the primary-address extraction still raises — refuting the
claimed "if and only if". -/
theorem c5_counterexample :
    (accountsOf emptyThirdSegSession).head? = some "a:b:" ∧
    (jsSplitColon "a:b:").length = 3 ∧
    extractAllAddressesFromSession emptyThirdSegSession = ["z"] ∧
    extractAddressFromSession emptyThirdSegSession =
      .error (.invalidAccountFormat "a:b:") := by
  decide

/-- Claim C5, amended: `extractAddressFromSession` raises if and only if
the session has no first account string, the first account string is
empty, or its colon-split lacks a (non-empty) third segment; when it does
not raise, it returns the third segment of the first account. -/
theorem c5_extractAddress_fails_iff (S : Session) :
    extractAddressThrows S = primaryExtractionFailsSpec S ∧
    (∀ account, (accountsOf S).head? = some account →
      extractAddressThrows S = false →
      extractAddressFromSession S = .ok ((jsSplitColon account)[2]?.getD "")) := by
  constructor
  · rcases h : (accountsOf S).head? with _ | account
    · simp [extractAddressThrows, extractAddressFromSession, primaryExtractionFailsSpec, h]
    · by_cases hempty : account = ""
      · simp [extractAddressThrows, extractAddressFromSession, primaryExtractionFailsSpec,
          h, hempty]
      · rcases h2 : (jsSplitColon account)[2]? with _ | addr
        · simp [extractAddressThrows, extractAddressFromSession, primaryExtractionFailsSpec,
            h, hempty, h2]
        · by_cases haddr : addr = "" <;>
            simp [extractAddressThrows, extractAddressFromSession, primaryExtractionFailsSpec,
              h, hempty, h2, haddr]
  · intro account hacc hok
    by_cases hempty : account = ""
    · simp [extractAddressThrows, extractAddressFromSession, hacc, hempty] at hok
    · rcases h2 : (jsSplitColon account)[2]? with _ | addr
      · simp [extractAddressThrows, extractAddressFromSession, hacc, hempty, h2] at hok
      · by_cases haddr : addr = ""
        · simp [extractAddressThrows, extractAddressFromSession, hacc, hempty, h2, haddr] at hok
        · simp [extractAddressFromSession, hacc, hempty, h2, haddr]

/-- Witness for the amended claim C5 at a concrete well-formed session. -/
theorem c5_witness :
    extractAddressThrows wfSession = primaryExtractionFailsSpec wfSession ∧
    extractAddressFromSession wfSession = .ok "TXYZ" := by
  have h := c5_extractAddress_fails_iff wfSession
  refine ⟨h.1, ?_⟩
  have h2 := h.2 "tron:0x2b6653dc:TXYZ" (by decide) (by decide)
  simpa using h2

/-- Claim C9: whenever the primary-address extraction succeeds, its result
is the first element of the bulk extraction; in particular the bulk
extraction is non-empty. -/
theorem c9_primary_is_head_of_all (S : Session) (a : String)
    (h : extractAddressFromSession S = .ok a) :
    (extractAllAddressesFromSession S).head? = some a := by
  rcases haccs : accountsOf S with _ | ⟨account, rest⟩
  · simp [extractAddressFromSession, haccs] at h
  · by_cases hempty : account = ""
    · simp [extractAddressFromSession, haccs, hempty] at h
    · rcases h2 : (jsSplitColon account)[2]? with _ | addr
      · simp [extractAddressFromSession, haccs, hempty, h2] at h
      · by_cases haddr : addr = ""
        · simp [extractAddressFromSession, haccs, hempty, h2, haddr] at h
        · simp [extractAddressFromSession, haccs, hempty, h2, haddr] at h
          subst h
          simp [extractAllAddressesFromSession, haccs, List.filterMap_cons, h2, haddr]

/-- Witness for claim C9 at a concrete session. -/
theorem c9_witness :
    (extractAllAddressesFromSession wfSession).head? = some "TXYZ" :=
  c9_primary_is_head_of_all wfSession "TXYZ" (by decide)

/-! ## Claim C1: the `session_update` handler -/

/-- An update pushing a namespace whose single account has no third
colon-delimited segment. -/
def badUpdateNotif : UpdateNotif :=
  { topic := "topic1", paramsNamespaces := some [("tron", ⟨["bad"]⟩)] }

/-- An update pushing two well-formed accounts, different from
`wfSession`'s. -/
def twoAccountNotif : UpdateNotif :=
  { topic := "topic1"
    paramsNamespaces :=
      some [("tron", ⟨["tron:0x2b6653dc:TABC", "tron:0x2b6653dc:TDEF"]⟩)] }

/-- Claim C1, counterexample.  The topic matches the current session and
the re-fetched record exists, and the address sequence after the merge
(`[]`) differs from the one before (`["TXYZ"]`); yet no `accountsChanged`
event is emitted, because the primary-address extraction of the merged
session throws out of the handler before the comparison and the emit. -/
theorem c1_counterexample :
    sessionGet [wfSession] badUpdateNotif.topic = some wfSession ∧
    extractAllAddressesFromSession (mergeSession wfSession badUpdateNotif) ≠
      extractAllAddressesFromSession wfSession ∧
    (sessionUpdateHandler { session := some wfSession } [wfSession]
        badUpdateNotif).events = [] := by
  decide

/-- Claim C1, amended: under a matching topic and an existing re-fetched
record, the handler emits no `accountsChanged` event when the recomputed
address sequence equals the prior one, and emits exactly one such event,
carrying the new sequence, when the sequences differ — provided the
primary-address extraction of the merged session succeeds (when it
throws, the handler aborts without emitting). -/
theorem c1_update_emits_iff_changed (st : WalletState) (store : List Session)
    (n : UpdateNotif) (sess updated : Session)
    (hs : st.session = some sess) (ht : sess.topic = n.topic)
    (hg : sessionGet store n.topic = some updated) :
    (extractAllAddressesFromSession (mergeSession updated n) =
        extractAllAddressesFromSession sess →
      (sessionUpdateHandler st store n).events = []) ∧
    (∀ addr, extractAddressFromSession (mergeSession updated n) = .ok addr →
      extractAllAddressesFromSession (mergeSession updated n) ≠
        extractAllAddressesFromSession sess →
      (sessionUpdateHandler st store n).events =
        [.accountsChanged
          (extractAllAddressesFromSession (mergeSession updated n))]) := by
  constructor
  · intro heq
    cases hx : extractAddressFromSession (mergeSession updated n) with
    | error e => simp [sessionUpdateHandler, hs, ht, hg, hx]
    | ok addr => simp [sessionUpdateHandler, hs, ht, hg, hx, heq]
  · intro addr hx hne
    simp [sessionUpdateHandler, hs, ht, hg, hx, Ne.symm hne]

/-- Witness for the amended claim C1: an update that changes the address
sequence, on a merged session with a valid primary address, emits exactly
one `accountsChanged` with the new sequence. -/
theorem c1_witness :
    (sessionUpdateHandler { session := some wfSession } [wfSession]
        twoAccountNotif).events =
      [.accountsChanged ["TABC", "TDEF"]] := by
  have h :=
    (c1_update_emits_iff_changed { session := some wfSession } [wfSession]
        twoAccountNotif wfSession wfSession rfl rfl (by decide)).2
      "TABC" (by decide) (by decide)
  exact h.trans (by decide)

/-! ## Claim C2: `disconnect` always clears local state -/

/-- Claim C2: after `disconnect()` settles — whether it returns normally,
the remote disconnect request throws, or no topic/client exists and
`ClientNotInitializedError` is thrown — the stored session and address
are both cleared. -/
theorem c2_disconnect_clears_state (st : WalletState)
    (providerSessionTopic : Option String) (remoteDisconnectFails : Bool) :
    (disconnect st providerSessionTopic remoteDisconnectFails).state.session
        = none ∧
    (disconnect st providerSessionTopic remoteDisconnectFails).state.address
        = none := by
  unfold disconnect
  dsimp only
  split
  · simp
  · split
    · simp
    · split <;> simp

/-! ## Claim C10: `disconnect` emits nothing and leaves the listener
registry alone -/

/-- Claim C10: `disconnect()` emits no event on the in-process bus (so no
`accountsChanged`/`disconnect` listener is invoked) and leaves the
event-listener registry unchanged; the local `disconnect` event is
emitted by the `session_delete` handler exactly when the deleted topic
matches the current session's. -/
theorem c10_disconnect_frame (st : WalletState)
    (providerSessionTopic : Option String) (remoteDisconnectFails : Bool) :
    (disconnect st providerSessionTopic remoteDisconnectFails).events = [] ∧
    (disconnect st providerSessionTopic remoteDisconnectFails).state.eventListeners
        = st.eventListeners ∧
    (∀ topic, (sessionDeleteHandler st topic).events =
      if st.session.map Session.topic = some topic then [.disconnected]
      else []) := by
  refine ⟨?_, ?_, ?_⟩
  · unfold disconnect
    dsimp only
    split
    · simp
    · split
      · simp
      · split <;> simp
  · unfold disconnect
    dsimp only
    split
    · simp
    · split
      · simp
      · split <;> simp
  · intro topic
    cases hsess : st.session with
    | none => simp [sessionDeleteHandler, hsess]
    | some sess =>
      by_cases htop : sess.topic = topic
      · simp [sessionDeleteHandler, hsess, htop]
      · simp [sessionDeleteHandler, hsess, htop]

/-! ## Claim C3: modal close before approval -/

/-- Claim C3: with no existing acknowledged session, when the UI-close
watcher fires before the pairing-approval promise resolves, `connect()`
rejects with the user-cancelled error, the UI was opened, and the Session
Store stays empty (no session stored, no address set). -/
theorem c3_modal_close_cancels (st : WalletState) (env : ConnectEnv)
    (hfind : env.findResult.filter Session.acknowledged = [])
    (hrace : env.race = .modalClosedFirst)
    (hs : st.session = none) (ha : st.address = none) :
    (connect st env).outcome = .error .userClosedModal ∧
    (connect st env).uiOpened = true ∧
    (connect st env).state.session = none ∧
    (connect st env).state.address = none := by
  cases hak : st.appKitPresent <;>
    simp [connect, hfind, hrace, setupModalListeners, hak, hs, ha]

/-- Witness for claim C3 at a fresh adapter and an empty `find` result. -/
theorem c3_witness :
    (connect {} { findResult := [], race := .modalClosedFirst }).outcome
        = .error .userClosedModal ∧
    (connect {} { findResult := [], race := .modalClosedFirst }).state.session
        = none := by
  have h := c3_modal_close_cancels {}
    { findResult := [], race := .modalClosedFirst } rfl rfl rfl rfl
  exact ⟨h.1, h.2.2.1⟩

/-! ## Claim C6: consecutive resumes never open the UI -/

/-- Claim C6: with at least one acknowledged session in the `find`
result (whose last element yields a primary address), two consecutive
`connect()` calls both take the resume path: each adopts the last
session, emits `accountsChanged` with its address list, returns its
primary address, and never opens the approval UI. -/
theorem c6_consecutive_resume_no_ui (st : WalletState) (env : ConnectEnv)
    (l : Session) (a : String)
    (hlast : (env.findResult.filter Session.acknowledged).getLast? = some l)
    (hextract : extractAddressFromSession l = .ok a) :
    (connect st env).uiOpened = false ∧
    (connect st env).outcome = .ok a ∧
    (connect st env).state.session = some l ∧
    (connect st env).events =
      [.accountsChanged (extractAllAddressesFromSession l)] ∧
    (connect (connect st env).state env).uiOpened = false ∧
    (connect (connect st env).state env).outcome = .ok a ∧
    (connect (connect st env).state env).state.session = some l ∧
    (connect (connect st env).state env).events =
      [.accountsChanged (extractAllAddressesFromSession l)] := by
  simp [connect, hlast, adoptSession, hextract, setupSessionListeners]

/-- Witness for claim C6 at a store holding one acknowledged session. -/
theorem c6_witness :
    (connect {} { findResult := [wfSession] }).uiOpened = false ∧
    (connect {} { findResult := [wfSession] }).outcome = .ok "TXYZ" ∧
    (connect (connect {} { findResult := [wfSession] }).state
        { findResult := [wfSession] }).uiOpened = false ∧
    (connect (connect {} { findResult := [wfSession] }).state
        { findResult := [wfSession] }).outcome = .ok "TXYZ" := by
  have h := c6_consecutive_resume_no_ui {} { findResult := [wfSession] }
    wfSession "TXYZ" (by decide) (by decide)
  exact ⟨h.1, h.2.1, h.2.2.2.2.1, h.2.2.2.2.2.1⟩

/-! ## Claim C4: provider initialization memoization -/

/-- Claim C4: a `getProvider()` call from the idle state starts one
attempt and memoizes it; a second call while that attempt is in flight
joins the same attempt without changing the memoization state; after the
attempt fails the memoized promise is cleared, and the next call starts a
fresh, distinct attempt. -/
theorem c4_memoization (st : ProviderInitState)
    (hp : st.provider = none) (hq : st.providerPromise = none) :
    getProviderBegin st true =
      .awaitAttempt st.nextAttempt
        { st with
          providerPromise := some st.nextAttempt
          nextAttempt := st.nextAttempt + 1 } ∧
    getProviderBegin
        { st with
          providerPromise := some st.nextAttempt
          nextAttempt := st.nextAttempt + 1 } true =
      .awaitAttempt st.nextAttempt
        { st with
          providerPromise := some st.nextAttempt
          nextAttempt := st.nextAttempt + 1 } ∧
    (attemptFailed
        { st with
          providerPromise := some st.nextAttempt
          nextAttempt := st.nextAttempt + 1 }).providerPromise = none ∧
    getProviderBegin
        (attemptFailed
          { st with
            providerPromise := some st.nextAttempt
            nextAttempt := st.nextAttempt + 1 }) true =
      .awaitAttempt (st.nextAttempt + 1)
        { st with
          providerPromise := some (st.nextAttempt + 1)
          nextAttempt := st.nextAttempt + 2 } ∧
    st.nextAttempt + 1 ≠ st.nextAttempt := by
  refine ⟨?_, ?_, ?_, ?_, by omega⟩ <;>
    simp [getProviderBegin, attemptFailed, hp, hq]

/-- Witness for claim C4 at the initial memoization state. -/
theorem c4_witness :
    getProviderBegin {} true =
      .awaitAttempt 0 { providerPromise := some 0, nextAttempt := 1 } ∧
    getProviderBegin (attemptFailed
        { providerPromise := some 0, nextAttempt := 1 }) true =
      .awaitAttempt 1 { providerPromise := some 1, nextAttempt := 2 } := by
  have h := c4_memoization {} rfl rfl
  exact ⟨h.1, h.2.2.2.1⟩

/-! ## Claim C7: `signTransaction` -/

/-- Restatement of the spec's `v1` parameter shape `{address, transaction}`. -/
def v1ParamsSpec (address : Option String) (tx : JValue) : JValue :=
  .obj [("address", optStrJ address), ("transaction", tx)]

/-- Restatement of the spec's default parameter shape
`{address, transaction: {transaction}}`. -/
def defaultParamsSpec (address : Option String) (tx : JValue) : JValue :=
  .obj [("address", optStrJ address), ("transaction", .obj [("transaction", tx)])]

/-- Restatement of the amended return rule: the inner `result` field when
present and truthy, otherwise the raw response. -/
def returnedValueSpec (response : JValue) : JValue :=
  match response.getField "result" with
  | some v => if v.truthy then v else response
  | none => response

/-- A connected adapter state for exercising the signing operations. -/
def signingState : WalletState :=
  { clientPresent := true, session := some wfSession, address := some "TXYZ" }

/-- A response whose `result` field is present but falsy (the empty
string). -/
def falsyResultResponse : JValue := .obj [("result", .str "")]

/-- Claim C7, counterexample.  On a response whose `result` field is
present but falsy, `signTransaction` returns the raw response, not the
inner field as the claim states. -/
theorem c7_counterexample :
    falsyResultResponse.getField "result" = some (.str "") ∧
    signTransaction signingState (.str "tx") falsyResultResponse =
      .ok (⟨"tron:0x2b6653dc", "topic1", "tron_signTransaction",
            .obj [("address", .str "TXYZ"),
                  ("transaction", .obj [("transaction", .str "tx")])]⟩,
           falsyResultResponse) ∧
    falsyResultResponse ≠ .str "" :=
  ⟨rfl, rfl, fun h => JValue.noConfusion h⟩

/-- Claim C7, amended: with a client and an active session,
`signTransaction` dispatches `tron_signTransaction` on the session's
topic and the configured chain, with `{address, transaction}` parameters
exactly when `sessionProperties.tron_method_version = 'v1'` and
`{address, transaction: {transaction}}` otherwise, and returns the
response's inner `result` field when it is present *and truthy*,
otherwise the raw response; with no client or no session it fails with
the not-initialized error. -/
theorem c7_signTransaction_shape (st : WalletState) (sess : Session)
    (tx response : JValue)
    (hc : st.clientPresent = true) (hs : st.session = some sess) :
    signTransaction st tx response =
      .ok ({ chainId := st.network
             topic := sess.topic
             method := "tron_signTransaction"
             params :=
               if isV1Method sess then v1ParamsSpec st.address tx
               else defaultParamsSpec st.address tx },
           returnedValueSpec response) ∧
    (∀ st' : WalletState, st'.clientPresent = false ∨ st'.session = none →
      signTransaction st' tx response = .error .clientNotInitialized) := by
  constructor
  · simp [signTransaction, hc, hs, v1ParamsSpec, defaultParamsSpec,
      returnedValueSpec]
  · intro st' h
    rcases h with h | h <;> simp [signTransaction, h]

/-- Witness for the amended claim C7 under a default-version session and
a truthy `result` field. -/
theorem c7_witness :
    signTransaction signingState (.str "tx") (.obj [("result", .str "sig")]) =
      .ok (⟨"tron:0x2b6653dc", "topic1", "tron_signTransaction",
            .obj [("address", .str "TXYZ"),
                  ("transaction", .obj [("transaction", .str "tx")])]⟩,
           .str "sig") := by
  have h := (c7_signTransaction_shape signingState wfSession (.str "tx")
    (.obj [("result", .str "sig")]) rfl rfl).1
  exact h.trans rfl

/-! ## Claim C8: pre-controller unsubscription -/

/-- An association list whose keys are all below `n` has no binding for
`n`. -/
theorem lookup_none_of_keys_lt {l : List (Nat × Nat)} {n : Nat}
    (h : ∀ p ∈ l, p.1 < n) : l.lookup n = none := by
  induction l with
  | nil => rfl
  | cons p t ih =>
    have hp := h p (by simp)
    have hne : (n == p.1) = false := by simp; omega
    simp only [List.lookup, hne]
    exact ih fun q hq => h q (by simp [hq])

/-- The erasure `eraseP` skips a prefix on which the predicate is false. -/
theorem eraseP_append_of_none {α : Type} {l₁ l₂ : List α} {p : α → Bool}
    (h : ∀ x ∈ l₁, p x = false) : (l₁ ++ l₂).eraseP p = l₁ ++ l₂.eraseP p := by
  induction l₁ with
  | nil => simp
  | cons x t ih =>
    have hx := h x (by simp)
    simp [List.eraseP_cons, hx, ih fun y hy => h y (by simp [hy])]

/-- Claim C8: a callback cached by `subscribeModalState` before the UI
controller exists, whose returned unsubscribe closure runs before the
controller is created, has its pending record removed from the queue, and
after the controller is created and the queue drained the callback is not
subscribed (hence never invoked).  The well-formedness hypotheses say the
fresh-id supply is indeed fresh and the callback is not otherwise
registered. -/
theorem c8_unsubscribe_before_controller (st : WalletState) (cb : Nat)
    (hpend : ∀ r ∈ st.pendingModal, r.slotId < st.nextSlotId)
    (hslots : ∀ p ∈ st.slotAssignments, p.1 < st.nextSlotId)
    (hsub : cb ∉ st.appKitModalSubscribed)
    (hq : ∀ r ∈ st.pendingModal, r.callback ≠ cb) :
    (pendingUnsubscribe (subscribeModalStateBeforeAppKit st cb).1
        (subscribeModalStateBeforeAppKit st cb).2).pendingModal
      = st.pendingModal ∧
    cb ∉ (setupModalListeners
        { pendingUnsubscribe (subscribeModalStateBeforeAppKit st cb).1
            (subscribeModalStateBeforeAppKit st cb).2
          with appKitPresent := true }).appKitModalSubscribed := by
  have hlookup : st.slotAssignments.lookup st.nextSlotId = none :=
    lookup_none_of_keys_lt hslots
  have herase :
      (st.pendingModal ++ [PendingRec.mk st.nextSlotId cb]).eraseP
          (fun r => r.slotId == st.nextSlotId)
        = st.pendingModal := by
    rw [eraseP_append_of_none fun x hx => by
      have := hpend x hx
      simp only [beq_eq_false_iff_ne, ne_eq]
      omega]
    simp [List.eraseP_cons]
  have hst2 :
      pendingUnsubscribe (subscribeModalStateBeforeAppKit st cb).1
          (subscribeModalStateBeforeAppKit st cb).2
        = { st with nextSlotId := st.nextSlotId + 1 } := by
    simp [pendingUnsubscribe, subscribeModalStateBeforeAppKit, hlookup, herase]
  rw [hst2]
  refine ⟨rfl, ?_⟩
  simp only [setupModalListeners, List.removeAll, Bool.not_true,
    Bool.false_eq_true, if_false, List.mem_append, List.mem_filter,
    List.mem_map]
  rintro (⟨hmem, _⟩ | ⟨r, hr, hrcb⟩)
  · exact hsub hmem
  · exact hq r hr hrcb

/-- Witness for claim C8 at a fresh adapter state. -/
theorem c8_witness :
    (pendingUnsubscribe (subscribeModalStateBeforeAppKit {} 7).1
        (subscribeModalStateBeforeAppKit {} 7).2).pendingModal = [] ∧
    7 ∉ (setupModalListeners
        { pendingUnsubscribe (subscribeModalStateBeforeAppKit {} 7).1
            (subscribeModalStateBeforeAppKit {} 7).2
          with appKitPresent := true }).appKitModalSubscribed := by
  have h := c8_unsubscribe_before_controller {} 7 (by simp) (by simp)
    (by simp) (by simp)
  exact h

end WalletConnectTron
